import Mathlib

/-!
Shallow embedding of the vcluster operation-pipeline code relevant to
diagnostic-tarball retrieval (`nmaGetScrutinizeTarOp`) and database
replication (`replication.go`), together with proofs of the specified
properties.

Conventions of the embedding:
* Go `error` values are modelled as `Option String` (`none` = nil error,
  `some msg` = a non-nil error carrying message `msg`), and fallible
  functions returning a value use `Except String`.
* Go maps built and consumed by the code are modelled as association
  lists `List (String × String)` with insert-or-replace semantics.
* External effects (filesystem access, HTTP dispatch, host resolution,
  helpers whose bodies live outside the embedded files) are passed in as
  explicit outcome parameters, so every function is a pure function of
  its inputs.
-/

namespace VCluster

/-- Outcome of probing a directory for writability.  Models the return
value of `util.CanWriteAccessDir` (defined outside the embedded files):
the directory is usable, does not exist, or is not owner-writable. -/
inductive dirAccess where
  | okDir
  | fileNotExist
  | noWritePerm
deriving DecidableEq, Repr

/-- One per-host HTTP outcome as consumed by `processResult`:
the code only reads `result.isPassing()`, `result.isInternalError()` and
`result.err`, so the model keeps exactly those three observations. -/
structure hostHTTPResult where
  isPassing : Bool
  isInternalError : Bool
  err : String
deriving DecidableEq, Repr

/-- Modelled from the spec: `validateHostMaps` (its body is outside the
embedded files; only its call sites are in `src`).  Per the spec,
verification succeeds iff the host list and the key set of the
host-to-node-name map are exactly equal; any extra or missing host on
either side yields a configuration error. -/
def validateHostMaps (hosts : List String) (hostNodeNameMap : List (String × String)) :
    Option String :=
  let keys := hostNodeNameMap.map Prod.fst
  if hosts.all (fun h => keys.contains h) && keys.all (fun k => hosts.contains k) then
    none
  else
    some "configuration error: hosts and host-to-node-name map do not match up exactly"

/-- Modelled from the spec: `getInitiator` (defined outside the embedded
files) chooses a single initiator host, "typically the first reachable",
from the up-host list. -/
def getInitiator (upHosts : List String) : String :=
  upHosts.headD ""

/-- Modelled from the spec: the constant `scrutinizeRemoteOutputPath`
(defined outside the embedded files); the code comment on
`createOutputDir` states the output goes under `/tmp/scrutinize/remote`. -/
def scrutinizeRemoteOutputPath : String :=
  "/tmp/scrutinize/remote"

/-- The operation state of `nmaGetScrutinizeTarOp`, flattened with the
fields of its base structs that the embedded code reads or writes. -/
structure nmaGetScrutinizeTarOp where
  name : String
  hosts : List String
  id : String
  batch : String
  hostNodeNameMap : List (String × String)
  useInitiator : Bool
  skipExecute : Bool
deriving DecidableEq, Repr

/-- Embeds `createOutputDir`.  `os.MkdirAll`'s outcome and the
`util.CanWriteAccessDir` probe are external effects passed as
parameters; the function then returns exactly the error the source
returns for each probe outcome. -/
def createOutputDir (opId : String) (mkdirErr : Option String) (access : dirAccess) :
    Option String :=
  match mkdirErr with
  | some e => some e
  | none =>
    let outputDir := scrutinizeRemoteOutputPath ++ "/" ++ opId ++ "/"
    match access with
    | dirAccess.fileNotExist =>
      some ("opening scrutinize output directory failed: \x27" ++ outputDir ++ "\x27")
    | dirAccess.noWritePerm =>
      some ("scrutinize output directory not writeable: \x27" ++ outputDir ++ "\x27")
    | dirAccess.okDir => none

/-- Result of the constructor: the operation value plus the error it
returns (the Go constructor returns both). -/
structure makeResult where
  op : nmaGetScrutinizeTarOp
  err : Option String
deriving Repr

/-- Embeds `makeNMAGetScrutinizeTarOp`: populate the fields, validate
hosts against the host-to-node-name map, then create the output
directory, propagating the first error. -/
def makeNMAGetScrutinizeTarOp (opId batch : String) (hosts : List String)
    (hostNodeNameMap : List (String × String))
    (mkdirErr : Option String) (access : dirAccess) : makeResult :=
  let op : nmaGetScrutinizeTarOp :=
    { name := "NMAGetScrutinizeTarOp"
      hosts := hosts
      id := opId
      batch := batch
      hostNodeNameMap := hostNodeNameMap
      useInitiator := false
      skipExecute := false }
  match validateHostMaps hosts hostNodeNameMap with
  | some e => { op := op, err := some e }
  | none => { op := op, err := createOutputDir opId mkdirErr access }

/-- Embeds `useSingleHost`: marks the op to retrieve only from the first
up node. -/
def useSingleHost (op : nmaGetScrutinizeTarOp) : nmaGetScrutinizeTarOp :=
  { op with useInitiator := true }

/-- Association-list lookup, the read side of a Go `map[string]string`. -/
def lookupPairs (m : List (String × String)) (k : String) : Option String :=
  match m.find? (fun p => p.1 == k) with
  | some p => some p.2
  | none => none

/-- Association-list insert-or-replace, the write side of a Go
`map[string]string` assignment `m[k] = v`: the new binding shadows and
removes any previous binding of the same key. -/
def mapInsert (m : List (String × String)) (k v : String) : List (String × String) :=
  (k, v) :: m.filter (fun p => !(p.1 == k))

/-- The expected local file path `prepare` registers for one host:
`fmt.Sprintf("%s/%s/%s-%s.tgz", scrutinizeRemoteOutputPath, op.id,
op.hostNodeNameMap[host], op.batch)`.  A missing map entry reads as the
Go zero value, the empty string. -/
def tarballPath (op : nmaGetScrutinizeTarOp) (host : String) : String :=
  scrutinizeRemoteOutputPath ++ "/" ++ op.id ++ "/" ++
    (lookupPairs op.hostNodeNameMap host).getD "" ++ "-" ++ op.batch ++ ".tgz"

/-- The `hostToFilePathsMap` loop in `prepare`: for each host in
`op.hosts`, assign its tarball path into the map. -/
def buildHostToFilePathsMap (op : nmaGetScrutinizeTarOp) : List (String × String) :=
  op.hosts.foldl (fun m host => mapInsert m host (tarballPath op host)) []

/-- Everything `prepare` produces: the updated operation value, the
`(hosts, hostToFilePathsMap)` pair handed to
`execContext.dispatcher.setupForDownload` (`none` when that call was
never reached), and the returned error. -/
structure prepareResult where
  op : nmaGetScrutinizeTarOp
  download : Option (List String × List (String × String))
  err : Option String
deriving Repr

/-- The tail of `prepare` shared by both paths: build the
host-to-file-paths map and register it with the dispatcher.  The final
`setupClusterHTTPRequest` call is modelled from the spec (its body is
outside the embedded files): it builds the per-host request template and
is modelled as succeeding. -/
def prepareDispatch (op : nmaGetScrutinizeTarOp) : prepareResult :=
  { op := op
    download := some (op.hosts, buildHostToFilePathsMap op)
    err := none }

/-- Embeds `nmaGetScrutinizeTarOp.prepare`.  The execution context's
`upHosts` is the only context field read. -/
def prepare (op : nmaGetScrutinizeTarOp) (upHosts : List String) : prepareResult :=
  if op.useInitiator then
    if upHosts.isEmpty then
      { op := { op with skipExecute := true }, download := none, err := none }
    else
      match validateHostMaps [getInitiator upHosts] op.hostNodeNameMap with
      | some e =>
        { op := { op with hosts := [getInitiator upHosts] }, download := none, err := some e }
      | none => prepareDispatch { op with hosts := [getInitiator upHosts] }
  else
    prepareDispatch op

/-- Message logged by `PrintWarning` for an internal (skippable) per-host
error in `processResult`. -/
def tarballWarn (batch host : String) : String :=
  "Failed to tar batch " ++ batch ++ " on host " ++ host ++ ". Skipping."

/-- Message joined into `allErrs` for a fatal per-host error in
`processResult`. -/
def tarballFatalErr (batch host errMsg : String) : String :=
  "failed to retrieve tarball batch " ++ batch ++ " on host " ++ host ++
    ", details " ++ errMsg

/-- What one run of `processResult` emits: the pipeline-level warnings it
prints and the list of per-host fatal errors `errors.Join` accumulates
into `allErrs` (the empty list stands for the nil error). -/
structure processOutcome where
  warnings : List String
  allErrs : List String
deriving DecidableEq, Repr

/-- Embeds `nmaGetScrutinizeTarOp.processResult`: walk the per-host
result collection; a passing host contributes nothing, a failing host
with an internal error contributes a warning, any other failing host
contributes a joined fatal error. -/
def processResult (batch : String) : List (String × hostHTTPResult) → processOutcome
  | [] => { warnings := [], allErrs := [] }
  | (host, result) :: rest =>
    let acc := processResult batch rest
    if result.isPassing then
      acc
    else if result.isInternalError then
      { acc with warnings := tarballWarn batch host :: acc.warnings }
    else
      { acc with allErrs := tarballFatalErr batch host result.err :: acc.allErrs }

/-- Models `errors.Join` over the accumulated list: the joined error is
nil exactly when no error was joined. -/
def joinErrs (errs : List String) : Option (List String) :=
  if errs.isEmpty then none else some errs

/-- Embeds `nmaGetScrutinizeTarOp.execute`, with the dispatch's per-host
result collection passed as a parameter (the HTTP dispatch is external
I/O performed by `runExecute`).  The `skipExecute` short-circuit is
modelled from the spec (`runExecute` lives outside the embedded files):
when `skipExecute` is set, execute returns success immediately with an
empty result collection and no dispatch.  Returns the result collection
the operation observed and the error it returns. -/
def executeOp (op : nmaGetScrutinizeTarOp)
    (dispatched : List (String × hostHTTPResult)) :
    List (String × hostHTTPResult) × Option (List String) :=
  if op.skipExecute then
    ([], none)
  else
    (dispatched, joinErrs (processResult op.batch dispatched).allErrs)

/-!
Replication side (`replication.go`).  `DatabaseOptions` and the helper
validators under `util` are defined outside the embedded files; the
structures below keep exactly the fields the embedded code reads or
writes, and each external helper's outcome is a parameter bundled in
`externalOutcomes`.
-/

/-- Modelled from the spec: the shared `DatabaseOptions` struct (defined
outside the embedded files), restricted to the fields `replication.go`
uses. -/
structure DatabaseOptions where
  dbName : String
  hosts : List String
  rawHosts : List String
  userName : String
  password : Option String
  ipv6 : Bool
  isEon : Bool
  usePassword : Bool
deriving DecidableEq, Repr

/-- Embeds `VReplicationDatabaseOptions`: the embedded source
`DatabaseOptions` (`base`), the target database options, and the
replication-specific fields of `ReplicationOptions`. -/
structure VReplicationDatabaseOptions where
  base : DatabaseOptions
  targetDB : DatabaseOptions
  sourceTLSConfig : String
  sandboxName : String
  async : Bool
  tableOrSchemaName : String
  includePattern : String
  excludePattern : String
  targetNamespace : String
deriving DecidableEq, Repr

/-- Outcomes of every call `replication.go` makes into code outside the
embedded files, each an explicit parameter so the embedding is pure. -/
structure externalOutcomes where
  validateBaseOptionsErr : Option String
  validateAuthErr : Option String
  validateDBNameErr : Option String
  validateSandboxNameErr : Option String
  validateTableOrSchemaErr : Option String
  validateIncludePatternErr : Option String
  validateExcludePatternErr : Option String
  validateTargetNamespaceErr : Option String
  resolveTargetHostsResult : Except String (List String)
  resolveRawHostsResult : Except String (List String)
  setUsePasswordErr : Option String
  currentUsername : Except String String
  getVDBErr : Option String
  engineRun : Except String (Option Int)
deriving Repr

/-- Embeds `validateRequiredOptions`: delegates to `validateBaseOptions`
(outside the embedded files, outcome supplied in `ext`). -/
def validateRequiredOptions (ext : externalOutcomes) : Option String :=
  ext.validateBaseOptionsErr

/-- Embeds `validateEonOptions`: replication requires Eon mode. -/
def validateEonOptions (options : VReplicationDatabaseOptions) : Option String :=
  if !options.base.isEon then
    some "replication is only supported in Eon mode"
  else
    none

/-- Embeds `validateExtraOptions`: target hosts and database name must
be present, the target database name must validate, differing usernames
need a password or TLS config, and a non-empty sandbox name must
validate. -/
def validateExtraOptions (options : VReplicationDatabaseOptions) (ext : externalOutcomes) :
    Option String :=
  if options.targetDB.hosts.isEmpty then
    some "must specify a target host or target host list"
  else if options.targetDB.dbName = "" then
    some "must specify a target database name"
  else
    match ext.validateDBNameErr with
    | some e => some e
    | none =>
      if options.targetDB.userName ≠ options.base.userName ∧
          options.targetDB.password = none ∧ options.sourceTLSConfig = "" then
        some "only trust authentication can support username without password or TLSConfig"
      else if options.sandboxName ≠ "" then
        ext.validateSandboxNameErr
      else
        none

/-- Embeds `validateFineGrainedReplicationOptions`: each non-empty
pattern or name field is validated by the corresponding `util` helper,
first failure wins. -/
def validateFineGrainedReplicationOptions (options : VReplicationDatabaseOptions)
    (ext : externalOutcomes) : Option String :=
  match (if options.tableOrSchemaName = "" then none else ext.validateTableOrSchemaErr) with
  | some e => some e
  | none =>
    match (if options.includePattern = "" then none else ext.validateIncludePatternErr) with
    | some e => some e
    | none =>
      match (if options.excludePattern = "" then none else ext.validateExcludePatternErr) with
      | some e => some e
      | none =>
        if options.targetNamespace = "" then none else ext.validateTargetNamespaceErr

/-- Embeds `validateParseOptions`: the five validation batches run in a
fixed order — required, Eon, auth, extra, fine-grained — returning the
first failure. -/
def validateParseOptions (options : VReplicationDatabaseOptions) (ext : externalOutcomes) :
    Option String :=
  match validateRequiredOptions ext with
  | some e => some e
  | none =>
    match validateEonOptions options with
    | some e => some e
    | none =>
      match ext.validateAuthErr with
      | some e => some e
      | none =>
        match validateExtraOptions options ext with
        | some e => some e
        | none => validateFineGrainedReplicationOptions options ext

/-- Embeds `analyzeOptions`: resolve the target hosts (when any are
given) and the raw source hosts (when any are given) to addresses,
propagating resolution failures. -/
def analyzeOptions (options : VReplicationDatabaseOptions) (ext : externalOutcomes) :
    Except String VReplicationDatabaseOptions :=
  let afterTarget : Except String VReplicationDatabaseOptions :=
    if options.targetDB.hosts.length > 0 then
      match ext.resolveTargetHostsResult with
      | Except.error e => Except.error e
      | Except.ok addrs =>
        Except.ok { options with targetDB := { options.targetDB with hosts := addrs } }
    else
      Except.ok options
  match afterTarget with
  | Except.error e => Except.error e
  | Except.ok o1 =>
    if o1.base.rawHosts.length > 0 then
      match ext.resolveRawHostsResult with
      | Except.error e => Except.error e
      | Except.ok addrs => Except.ok { o1 with base := { o1.base with hosts := addrs } }
    else
      Except.ok o1

/-- Embeds `validateAnalyzeOptions`: parse-validate, then analyze. -/
def validateAnalyzeOptions (options : VReplicationDatabaseOptions) (ext : externalOutcomes) :
    Except String VReplicationDatabaseOptions :=
  match validateParseOptions options ext with
  | some e => Except.error e
  | none => analyzeOptions options ext

/-- Embeds `nmaReplicationStatusRequestData`, the request payload of the
pre-trigger status snapshot. -/
structure nmaReplicationStatusRequestData where
  dbName : String
  excludedTransactionIDs : List Int
  getTransactionIDsOnly : Bool
  transactionID : Int
  userName : String
  password : Option String
deriving DecidableEq, Repr

/-- Embeds `nmaStartReplicationRequestData`, the request payload of the
replication trigger. -/
structure nmaStartReplicationRequestData where
  dbName : String
  excludePattern : String
  includePattern : String
  tableOrSchemaName : String
  username : String
  password : Option String
  targetDBName : String
  targetHost : String
  targetNamespace : String
  targetUserName : String
  targetPassword : Option String
  tlsConfig : String
deriving DecidableEq, Repr

/-- Instruction descriptors: one constructor per operation
`produceDBReplicationInstructions` can emit, carrying the arguments its
`make...Op` constructor receives.  Shared mutable `*[]int64` / `*int64`
cells are modelled by `Nat` slot tokens: two descriptors holding the
same token share the same cell. -/
inductive clusterOp where
  | nmaHealthOp (hosts : List String)
  | nmaReplicationStatusOp (hosts : List String) (usePassword : Bool)
      (data : nmaReplicationStatusRequestData)
      (transactionIDsSlot : Nat) (transactionIDSlot : Option Nat)
  | nmaStartReplicationOp (hosts : List String) (usePassword targetUsePassword : Bool)
      (data : nmaStartReplicationRequestData)
  | nmaPollReplicationStatusOp (targetHosts : List String) (targetUsePassword : Bool)
      (sandboxName : String) (existingTransactionIDsSlot : Nat)
      (newTransactionIDSlot : Nat)
  | httpsDisallowMultipleNamespacesOp (hosts : List String) (usePassword : Bool)
      (userName : String) (password : Option String) (sandboxName : String)
  | httpsStartReplicationOp (dbName : String) (hosts : List String) (usePassword : Bool)
      (userName : String) (password : Option String) (targetUsePassword : Bool)
      (targetHost : String) (tlsConfig : String) (sandboxName : String)
deriving DecidableEq, Repr

/-- The target-username verification step of
`produceDBReplicationInstructions`: when a target password is given,
passwords are in use, and an empty target username is replaced by the
current OS username (`util.GetCurrentUsername`, outcome supplied as a
parameter, failure propagated). -/
def resolveTargetUsername (options : VReplicationDatabaseOptions)
    (currentUsername : Except String String) :
    Except String (Bool × VReplicationDatabaseOptions) :=
  match options.targetDB.password with
  | none => Except.ok (false, options)
  | some _ =>
    if options.targetDB.userName = "" then
      match currentUsername with
      | Except.error e => Except.error e
      | Except.ok username =>
        Except.ok (true, { options with targetDB := { options.targetDB with userName := username } })
    else
      Except.ok (true, options)

/-- Embeds `produceDBReplicationInstructions`.  The `make...Op`
constructors are modelled from the spec as always succeeding descriptor
builders (their bodies are outside the embedded files).  The fresh
`transactionIDs := &[]int64{}` cell is allocated as slot token
`asyncReplicationTransactionIDSlot + 1`, guaranteed distinct from the
caller's output slot. -/
def produceDBReplicationInstructions (options : VReplicationDatabaseOptions)
    (setUsePasswordErr : Option String) (currentUsername : Except String String)
    (asyncReplicationTransactionIDSlot : Nat) : Except String (List clusterOp) :=
  match setUsePasswordErr with
  | some e => Except.error e
  | none =>
    match resolveTargetUsername options currentUsername with
    | Except.error e => Except.error e
    | Except.ok (targetUsePassword, opts) =>
      let initiatorTargetHost := getInitiator opts.targetDB.hosts
      if opts.async then
        let transactionIDsSlot := asyncReplicationTransactionIDSlot + 1
        let statusData : nmaReplicationStatusRequestData :=
          { dbName := opts.targetDB.dbName
            excludedTransactionIDs := []
            getTransactionIDsOnly := true
            transactionID := 0
            userName := opts.targetDB.userName
            password := opts.targetDB.password }
        let replicationData : nmaStartReplicationRequestData :=
          { dbName := opts.base.dbName
            excludePattern := opts.excludePattern
            includePattern := opts.includePattern
            tableOrSchemaName := opts.tableOrSchemaName
            username := opts.base.userName
            password := opts.base.password
            targetDBName := opts.targetDB.dbName
            targetHost := initiatorTargetHost
            targetNamespace := opts.targetNamespace
            targetUserName := opts.targetDB.userName
            targetPassword := opts.targetDB.password
            tlsConfig := opts.sourceTLSConfig }
        Except.ok
          [clusterOp.nmaHealthOp (opts.base.hosts ++ opts.targetDB.hosts),
           clusterOp.nmaReplicationStatusOp opts.targetDB.hosts targetUsePassword
             statusData transactionIDsSlot none,
           clusterOp.nmaStartReplicationOp opts.base.hosts opts.base.usePassword
             targetUsePassword replicationData,
           clusterOp.nmaPollReplicationStatusOp opts.targetDB.hosts targetUsePassword
             opts.sandboxName transactionIDsSlot asyncReplicationTransactionIDSlot]
      else
        Except.ok
          [clusterOp.httpsDisallowMultipleNamespacesOp opts.base.hosts
             opts.base.usePassword opts.base.userName opts.base.password opts.sandboxName,
           clusterOp.httpsStartReplicationOp opts.base.dbName opts.base.hosts
             opts.base.usePassword opts.base.userName opts.base.password targetUsePassword
             initiatorTargetHost opts.sourceTLSConfig opts.sandboxName]

/-- Substring test, modelling `strings.Contains`. -/
def containsSubstr (s pat : String) : Bool :=
  (s.splitOn pat).length != 1

/-- The hint the engine-run error is rewritten to when credential
forwarding is disabled on the source database. -/
def credentialForwardingHint : String :=
  "target database authentication failed, need to do one of the following things: " ++
    "1. provide tlsconfig or target username with password " ++
    "2. set EnableConnectCredentialForwarding to True in source database using vsql " ++
    "3. configure a Trust Authentication in target database using vsql"

/-- The engine-run error rewrite in `VReplicateDatabase`. -/
def rewriteEngineRunError (e : String) : String :=
  if containsSubstr e "EnableConnectCredentialForwarding is false" then
    credentialForwardingHint
  else
    e

/-- Embeds `VReplicateDatabase`: validate and analyze the options,
discover the database (external, outcome in `ext`), produce the
instructions, run the engine (external; on success `ext.engineRun`
carries the value the pipeline wrote into the
`asyncReplicationTransactionID` output slot, `none` when the slot was
left at its `new(int64)` zero value), and return the slot's final value
together with the error. -/
def VReplicateDatabase (options : VReplicationDatabaseOptions) (ext : externalOutcomes) :
    Int × Option String :=
  match validateAnalyzeOptions options ext with
  | Except.error e => (0, some e)
  | Except.ok options1 =>
    match ext.getVDBErr with
    | some e => (0, some e)
    | none =>
      match produceDBReplicationInstructions options1 ext.setUsePasswordErr
          ext.currentUsername 0 with
      | Except.error e => (0, some ("fail to produce instructions, " ++ e))
      | Except.ok _instructions =>
        match ext.engineRun with
        | Except.error e => (0, some ("fail to replicate database: " ++ rewriteEngineRunError e))
        | Except.ok written => (written.getD 0, none)

/-!
Sample inputs used by the witness theorems.
-/

/-- A scrutinize-tar operation retrieving from two hosts. -/
def sampleTarOp : nmaGetScrutinizeTarOp :=
  { name := "NMAGetScrutinizeTarOp"
    hosts := ["A", "B"]
    id := "id1"
    batch := "normal"
    hostNodeNameMap := [("A", "nodeA"), ("B", "nodeB")]
    useInitiator := false
    skipExecute := false }

/-- A single-initiator scrutinize-tar operation. -/
def sampleInitTarOp : nmaGetScrutinizeTarOp :=
  { sampleTarOp with useInitiator := true }

/-- Source-database options of a well-formed replication request. -/
def sampleDBOptions : DatabaseOptions :=
  { dbName := "srcdb"
    hosts := ["S1"]
    rawHosts := []
    userName := "u"
    password := none
    ipv6 := false
    isEon := true
    usePassword := false }

/-- Target-database options of a well-formed replication request. -/
def sampleTargetOptions : DatabaseOptions :=
  { dbName := "tgtdb"
    hosts := ["T1"]
    rawHosts := []
    userName := "u"
    password := none
    ipv6 := false
    isEon := true
    usePassword := false }

/-- Well-formed synchronous replication options. -/
def sampleReplOptions : VReplicationDatabaseOptions :=
  { base := sampleDBOptions
    targetDB := sampleTargetOptions
    sourceTLSConfig := ""
    sandboxName := ""
    async := false
    tableOrSchemaName := ""
    includePattern := ""
    excludePattern := ""
    targetNamespace := "" }

/-- The same options in async mode. -/
def sampleAsyncOptions : VReplicationDatabaseOptions :=
  { sampleReplOptions with async := true }

/-- The same options with the database not in Eon mode. -/
def sampleNoEonOptions : VReplicationDatabaseOptions :=
  { sampleReplOptions with base := { sampleDBOptions with isEon := false } }

/-- External outcomes where every collaborator succeeds and the engine
run writes 42 into the output slot. -/
def sampleExt : externalOutcomes :=
  { validateBaseOptionsErr := none
    validateAuthErr := none
    validateDBNameErr := none
    validateSandboxNameErr := none
    validateTableOrSchemaErr := none
    validateIncludePatternErr := none
    validateExcludePatternErr := none
    validateTargetNamespaceErr := none
    resolveTargetHostsResult := Except.ok ["10.0.0.1"]
    resolveRawHostsResult := Except.ok []
    setUsePasswordErr := none
    currentUsername := Except.ok "osuser"
    getVDBErr := none
    engineRun := Except.ok (some 42) }

/-!
Helper lemmas.
-/

/-- The fatal errors `processResult` accumulates are exactly the fatal
hosts' messages, in traversal order. -/
theorem processResult_allErrs_eq (batch : String) (rc : List (String × hostHTTPResult)) :
    (processResult batch rc).allErrs =
      (rc.filter (fun hr => !hr.2.isPassing && !hr.2.isInternalError)).map
        (fun hr => tarballFatalErr batch hr.1 hr.2.err) := by
  induction rc with
  | nil => rfl
  | cons hd tl ih =>
    obtain ⟨host, result⟩ := hd
    cases hpass : result.isPassing <;> cases hint : result.isInternalError <;>
      simp [processResult, hpass, hint, ih, List.filter_cons]

/-- The warnings `processResult` prints are exactly the internal-error
hosts' messages, in traversal order. -/
theorem processResult_warnings_eq (batch : String) (rc : List (String × hostHTTPResult)) :
    (processResult batch rc).warnings =
      (rc.filter (fun hr => !hr.2.isPassing && hr.2.isInternalError)).map
        (fun hr => tarballWarn batch hr.1) := by
  induction rc with
  | nil => rfl
  | cons hd tl ih =>
    obtain ⟨host, result⟩ := hd
    cases hpass : result.isPassing <;> cases hint : result.isInternalError <;>
      simp [processResult, hpass, hint, ih, List.filter_cons]

/-!
Claim theorems.
-/

/-- C1: in `processResult` (the classification step of the scrutinize-
tar operation's `execute`), a passing host contributes nothing to the
returned error, an internal/skippable failure is logged as a warning and
does not join the aggregate error, only fatal failures join the
aggregate error, and when every host passed or failed only internally
the joined error is nil. -/
theorem c1_partial_failure_policy (batch : String) (rc : List (String × hostHTTPResult)) :
    (processResult batch rc).allErrs =
        (rc.filter (fun hr => !hr.2.isPassing && !hr.2.isInternalError)).map
          (fun hr => tarballFatalErr batch hr.1 hr.2.err) ∧
      (processResult batch rc).warnings =
        (rc.filter (fun hr => !hr.2.isPassing && hr.2.isInternalError)).map
          (fun hr => tarballWarn batch hr.1) ∧
      ((∀ hr ∈ rc, hr.2.isPassing = true ∨ hr.2.isInternalError = true) →
        joinErrs (processResult batch rc).allErrs = none) := by
  refine ⟨processResult_allErrs_eq batch rc, processResult_warnings_eq batch rc, ?_⟩
  intro hall
  have hfilter : rc.filter (fun hr => !hr.2.isPassing && !hr.2.isInternalError) = [] := by
    rw [List.filter_eq_nil_iff]
    intro hr hmem
    rcases hall hr hmem with h | h <;> simp [h]
  rw [joinErrs, processResult_allErrs_eq, hfilter]
  rfl

/-- C1 witness: a collection with one passing host and one internal
failure yields a nil joined error. -/
theorem c1_witness :
    joinErrs (processResult "normal"
      [("A", ⟨true, false, ""⟩), ("B", ⟨false, true, "no data to tar"⟩)]).allErrs = none :=
  (c1_partial_failure_policy "normal" _).2.2 (by decide)

/-- C2: every host whose result is a fatal (neither passing nor
internal) error has its message preserved in the combined error
`processResult` returns, regardless of how many hosts failed. -/
theorem c2_all_fatal_errors_preserved (batch host : String) (result : hostHTTPResult)
    (rc : List (String × hostHTTPResult)) (hmem : (host, result) ∈ rc)
    (hpass : result.isPassing = false) (hinternal : result.isInternalError = false) :
    tarballFatalErr batch host result.err ∈ (processResult batch rc).allErrs := by
  rw [processResult_allErrs_eq]
  refine List.mem_map.mpr ⟨(host, result), ?_, rfl⟩
  rw [List.mem_filter]
  exact ⟨hmem, by simp [hpass, hinternal]⟩

/-- C2 witness: with hosts A and B both failing fatally, both messages
appear in the combined error. -/
theorem c2_witness :
    tarballFatalErr "normal" "A" "connection refused" ∈
        (processResult "normal"
          [("A", ⟨false, false, "connection refused"⟩),
           ("B", ⟨false, false, "auth failed"⟩)]).allErrs ∧
      tarballFatalErr "normal" "B" "auth failed" ∈
        (processResult "normal"
          [("A", ⟨false, false, "connection refused"⟩),
           ("B", ⟨false, false, "auth failed"⟩)]).allErrs :=
  ⟨c2_all_fatal_errors_preserved "normal" "A" ⟨false, false, "connection refused"⟩
      [("A", ⟨false, false, "connection refused"⟩), ("B", ⟨false, false, "auth failed"⟩)]
      (by decide) rfl rfl,
   c2_all_fatal_errors_preserved "normal" "B" ⟨false, false, "auth failed"⟩
      [("A", ⟨false, false, "connection refused"⟩), ("B", ⟨false, false, "auth failed"⟩)]
      (by decide) rfl rfl⟩

/-- C3: for a single-initiator scrutinize-tar operation, an empty
`upHosts` at `prepare` time sets `skipExecute`, returns success, never
registers a download, and the subsequent `execute` returns success with
an empty result collection for any would-be dispatch outcome. -/
theorem c3_skip_on_empty_upHosts (op : nmaGetScrutinizeTarOp) (upHosts : List String)
    (huse : op.useInitiator = true) (hempty : upHosts = []) :
    (prepare op upHosts).err = none ∧
      (prepare op upHosts).op.skipExecute = true ∧
      (prepare op upHosts).download = none ∧
      ∀ dispatched, executeOp (prepare op upHosts).op dispatched = ([], none) := by
  subst hempty
  refine ⟨?_, ?_, ?_, ?_⟩ <;> simp [prepare, huse, executeOp]

/-- C3 witness: the single-initiator sample operation with no up hosts
skips execution and returns success with no results. -/
theorem c3_witness :
    (prepare sampleInitTarOp []).err = none ∧
      executeOp (prepare sampleInitTarOp []).op
        [("A", ⟨false, false, "never dispatched"⟩)] = ([], none) := by
  have h := c3_skip_on_empty_upHosts sampleInitTarOp [] rfl rfl
  exact ⟨h.1, h.2.2.2 _⟩

/-- C4: host-set validation succeeds iff the host list and the key set
of the host-to-node-name map are exactly equal (membership-wise), a
validation failure makes the constructor fail with the same
configuration error, and the single-initiator `prepare` re-runs the
check on its derived one-host list, failing the same way. -/
theorem c4_host_map_validation (hosts : List String) (m : List (String × String)) :
    (validateHostMaps hosts m = none ↔ (∀ h, h ∈ hosts ↔ h ∈ m.map Prod.fst)) ∧
      (∀ opId batch mkdirErr access e, validateHostMaps hosts m = some e →
        (makeNMAGetScrutinizeTarOp opId batch hosts m mkdirErr access).err = some e) ∧
      (∀ op upHosts, op.useInitiator = true → upHosts ≠ [] → op.hostNodeNameMap = m →
        ∀ e, validateHostMaps [getInitiator upHosts] m = some e →
          (prepare op upHosts).err = some e) := by
  refine ⟨?_, ?_, ?_⟩
  · constructor
    · intro hnone h
      by_cases hcond : (hosts.all (fun a => (m.map Prod.fst).contains a)
          && (m.map Prod.fst).all (fun k => hosts.contains k)) = true
      · rw [Bool.and_eq_true, List.all_eq_true, List.all_eq_true] at hcond
        constructor
        · intro hh
          have := hcond.1 h hh
          simpa using this
        · intro hk
          have := hcond.2 h hk
          simpa using this
      · exfalso
        rw [validateHostMaps] at hnone
        simp only [Bool.and_eq_true] at hnone hcond
        rw [if_neg (by simpa using hcond)] at hnone
        exact Option.noConfusion hnone
    · intro hiff
      rw [validateHostMaps]
      rw [if_pos]
      rw [Bool.and_eq_true, List.all_eq_true, List.all_eq_true]
      constructor
      · intro h hh
        simpa using (hiff h).mp hh
      · intro k hk
        simpa using (hiff k).mpr hk
  · intro opId batch mkdirErr access e hsome
    rw [makeNMAGetScrutinizeTarOp, hsome]
  · intro op upHosts huse hne hmap e hsome
    rw [prepare, if_pos huse, if_neg (by simpa using hne), hmap, hsome]

/-- C4 witness: a host absent from the map makes the constructor fail
with the configuration error, and an exactly-matching pair validates. -/
theorem c4_witness :
    (makeNMAGetScrutinizeTarOp "id1" "normal" ["A"] [] none dirAccess.okDir).err =
        some "configuration error: hosts and host-to-node-name map do not match up exactly" ∧
      validateHostMaps ["A"] [("A", "nodeA")] = none := by
  constructor
  · exact (c4_host_map_validation ["A"] []).2.1 "id1" "normal" none dirAccess.okDir _
      (by decide)
  · exact (c4_host_map_validation ["A"] [("A", "nodeA")]).1.mpr (by simp)

/-- C7: given a valid host/map pair, the constructor's returned error is
exactly the directory-readiness check's outcome: a missing or
non-writable output directory makes construction fail, and a ready
directory (with a successful `MkdirAll`) lets it succeed. -/
theorem c7_output_dir_checked_at_construction (opId batch : String) (hosts : List String)
    (m : List (String × String)) (mkdirErr : Option String) (access : dirAccess)
    (hvalid : validateHostMaps hosts m = none) :
    (makeNMAGetScrutinizeTarOp opId batch hosts m mkdirErr access).err =
        createOutputDir opId mkdirErr access ∧
      (access ≠ dirAccess.okDir →
        ((makeNMAGetScrutinizeTarOp opId batch hosts m mkdirErr access).err).isSome = true) ∧
      (mkdirErr = none → access = dirAccess.okDir →
        (makeNMAGetScrutinizeTarOp opId batch hosts m mkdirErr access).err = none) := by
  have hmk : (makeNMAGetScrutinizeTarOp opId batch hosts m mkdirErr access).err =
      createOutputDir opId mkdirErr access := by
    rw [makeNMAGetScrutinizeTarOp, hvalid]
  refine ⟨hmk, ?_, ?_⟩
  · intro hnotok
    rw [hmk]
    cases mkdirErr with
    | some e => rfl
    | none => cases access with
      | okDir => exact absurd rfl hnotok
      | fileNotExist => rfl
      | noWritePerm => rfl
  · intro hmkdir hok
    rw [hmk, hmkdir, hok]
    rfl

/-- C7 witness: with a matching host/map pair but a missing output
directory, the constructor returns a non-nil error; with a ready
directory it succeeds. -/
theorem c7_witness :
    ((makeNMAGetScrutinizeTarOp "id1" "normal" ["A"] [("A", "nodeA")] none
          dirAccess.fileNotExist).err).isSome = true ∧
      (makeNMAGetScrutinizeTarOp "id1" "normal" ["A"] [("A", "nodeA")] none
          dirAccess.okDir).err = none := by
  constructor
  · exact (c7_output_dir_checked_at_construction "id1" "normal" ["A"] [("A", "nodeA")]
      none dirAccess.fileNotExist (by decide)).2.1 (by decide)
  · exact (c7_output_dir_checked_at_construction "id1" "normal" ["A"] [("A", "nodeA")]
      none dirAccess.okDir (by decide)).2.2 rfl rfl

/-- C9: host-set validation is a pure function of the host list and the
map: equal inputs always produce equal outcomes, and in particular
re-running it on an already-validated pair succeeds again. -/
theorem c9_validation_pure (hosts hosts2 : List String) (m m2 : List (String × String))
    (hh : hosts = hosts2) (hm : m = m2) :
    validateHostMaps hosts m = validateHostMaps hosts2 m2 ∧
      (validateHostMaps hosts m = none → validateHostMaps hosts2 m2 = none) := by
  subst hh
  subst hm
  exact ⟨rfl, fun h => h⟩

/-- C9 witness: re-running validation on a validated pair returns
success again. -/
theorem c9_witness :
    validateHostMaps ["A"] [("A", "nodeA")] = validateHostMaps ["A"] [("A", "nodeA")] ∧
      validateHostMaps ["A"] [("A", "nodeA")] = none := by
  have h := c9_validation_pure ["A"] ["A"] [("A", "nodeA")] [("A", "nodeA")] rfl rfl
  exact ⟨h.1, h.2 (by decide)⟩

/-- Lookup steps through a cons cell by comparing its key. -/
theorem lookupPairs_cons (p : String × String) (t : List (String × String)) (k : String) :
    lookupPairs (p :: t) k = if p.1 = k then some p.2 else lookupPairs t k := by
  simp only [lookupPairs]
  by_cases h : p.1 = k
  · rw [List.find?_cons_of_pos _ (by simp [h]), if_pos h]
  · rw [List.find?_cons_of_neg _ (by simp [h]), if_neg h]

/-- Filtering out the bindings of key `k` does not change lookups of any
other key. -/
theorem lookup_filterNe (m : List (String × String)) (k k2 : String) (hne : k2 ≠ k) :
    lookupPairs (m.filter (fun p => !(p.1 == k))) k2 = lookupPairs m k2 := by
  induction m with
  | nil => rfl
  | cons p t ih =>
    rw [List.filter_cons]
    by_cases hp : p.1 = k
    · rw [if_neg (by simp [hp]), ih, lookupPairs_cons,
        if_neg (by rw [hp]; exact fun h => hne h.symm)]
    · rw [if_pos (by simp [hp]), lookupPairs_cons, lookupPairs_cons, ih]

/-- Lookup after a map assignment: the assigned key reads back the new
value, every other key is untouched. -/
theorem lookup_mapInsert (m : List (String × String)) (k v k2 : String) :
    lookupPairs (mapInsert m k v) k2 = if k2 = k then some v else lookupPairs m k2 := by
  rw [mapInsert, lookupPairs_cons]
  by_cases h : k2 = k
  · rw [if_pos h.symm, if_pos h]
  · rw [if_neg (fun hh => h hh.symm), if_neg h]
    exact lookup_filterNe m k k2 h

/-- Every key of the map after an assignment is the assigned key or a
pre-existing key. -/
theorem keys_mapInsert_subset (m : List (String × String)) (k v a : String)
    (ha : a ∈ (mapInsert m k v).map Prod.fst) : a = k ∨ a ∈ m.map Prod.fst := by
  rw [mapInsert, List.map_cons, List.mem_cons] at ha
  rcases ha with ha | ha
  · exact Or.inl ha
  · exact Or.inr (((List.filter_sublist _).map Prod.fst).subset ha)

/-- A map assignment preserves distinctness of the keys. -/
theorem keys_mapInsert_nodup (m : List (String × String)) (k v : String)
    (h : (m.map Prod.fst).Nodup) : ((mapInsert m k v).map Prod.fst).Nodup := by
  rw [mapInsert, List.map_cons]
  refine List.Nodup.cons ?_ (List.Nodup.sublist ((List.filter_sublist _).map Prod.fst) h)
  intro hk
  rw [List.mem_map] at hk
  obtain ⟨p, hp, hpk⟩ := hk
  rw [List.mem_filter] at hp
  have h2 := hp.2
  simp [hpk] at h2

/-- Lookup in the map built by folding per-key assignments whose value
depends only on the key. -/
theorem lookup_foldl_mapInsert (f : String → String) (hosts : List String) :
    ∀ (acc : List (String × String)) (k : String),
      lookupPairs (hosts.foldl (fun m h => mapInsert m h (f h)) acc) k =
        if k ∈ hosts then some (f k) else lookupPairs acc k := by
  induction hosts with
  | nil => intro acc k; simp
  | cons h t ih =>
    intro acc k
    rw [List.foldl_cons, ih]
    by_cases hk : k ∈ t
    · simp [hk]
    · by_cases hkh : k = h
      · subst hkh
        simp [hk, lookup_mapInsert]
      · simp [hk, hkh, lookup_mapInsert]

/-- Folding per-key assignments keeps the key list duplicate-free. -/
theorem keys_foldl_nodup (f : String → String) (hosts : List String) :
    ∀ (acc : List (String × String)), (acc.map Prod.fst).Nodup →
      ((hosts.foldl (fun m h => mapInsert m h (f h)) acc).map Prod.fst).Nodup := by
  induction hosts with
  | nil => intro acc h; simpa using h
  | cons h t ih =>
    intro acc hacc
    rw [List.foldl_cons]
    exact ih _ (keys_mapInsert_nodup _ _ _ hacc)

/-- Every key of the folded map came from the folded host list or the
initial map. -/
theorem keys_foldl_subset (f : String → String) (hosts : List String) :
    ∀ (acc : List (String × String)) (a : String),
      a ∈ (hosts.foldl (fun m h => mapInsert m h (f h)) acc).map Prod.fst →
      a ∈ hosts ∨ a ∈ acc.map Prod.fst := by
  induction hosts with
  | nil =>
    intro acc a ha
    exact Or.inr (by simpa using ha)
  | cons h t ih =>
    intro acc a ha
    rw [List.foldl_cons] at ha
    rcases ih _ a ha with hmem | hmem
    · exact Or.inl (List.mem_cons_of_mem _ hmem)
    · rcases keys_mapInsert_subset _ _ _ _ hmem with rfl | hmem2
      · exact Or.inl (List.mem_cons_self _ _)
      · exact Or.inr hmem2

/-- Each host of the operation reads back its tarball path from the
registered map. -/
theorem buildMap_lookup (op : nmaGetScrutinizeTarOp) (host : String)
    (hmem : host ∈ op.hosts) :
    lookupPairs (buildHostToFilePathsMap op) host = some (tarballPath op host) := by
  rw [buildHostToFilePathsMap, lookup_foldl_mapInsert, if_pos hmem]

/-- The registered map has duplicate-free keys. -/
theorem buildMap_keys_nodup (op : nmaGetScrutinizeTarOp) :
    ((buildHostToFilePathsMap op).map Prod.fst).Nodup :=
  keys_foldl_nodup _ op.hosts [] (by simp)

/-- Every key of the registered map is a targeted host. -/
theorem buildMap_keys_subset (op : nmaGetScrutinizeTarOp) (a : String)
    (ha : a ∈ (buildHostToFilePathsMap op).map Prod.fst) : a ∈ op.hosts := by
  rcases keys_foldl_subset _ op.hosts [] a ha with h | h
  · exact h
  · simp at h

/-- When `prepareDispatch` registered a download, the registration is
the op's host list and the built host-to-file-path map. -/
theorem prepareDispatch_download_spec (op1 : nmaGetScrutinizeTarOp) (hs : List String)
    (m : List (String × String)) (hdl : (prepareDispatch op1).download = some (hs, m)) :
    hs = op1.hosts ∧ m = buildHostToFilePathsMap op1 := by
  simp only [prepareDispatch, Option.some.injEq, Prod.mk.injEq] at hdl
  exact ⟨hdl.1.symm, hdl.2.symm⟩

/-- C8: whenever `prepare` registers a download mapping with the
dispatcher, the registered host list is exactly the operation's targeted
hosts, and the map assigns to every targeted host exactly one expected
local file path — `{outputPath}/{id}/{nodeName}-{batch}.tgz` built from
the output path, the operation id, the host's node name and the batch
name — with no duplicate and no extraneous keys. -/
theorem c8_prepare_registers_download_map (op : nmaGetScrutinizeTarOp)
    (upHosts hs : List String) (m : List (String × String))
    (hdl : (prepare op upHosts).download = some (hs, m)) :
    hs = (prepare op upHosts).op.hosts ∧
      (∀ host ∈ hs, lookupPairs m host = some (tarballPath (prepare op upHosts).op host)) ∧
      (m.map Prod.fst).Nodup ∧
      (∀ k ∈ m.map Prod.fst, k ∈ hs) := by
  by_cases huse : op.useInitiator
  · by_cases hup : upHosts.isEmpty
    · rw [prepare, if_pos huse, if_pos hup] at hdl
      exact absurd hdl (by simp)
    · rw [prepare, if_pos huse, if_neg hup] at hdl ⊢
      cases hv : validateHostMaps [getInitiator upHosts] op.hostNodeNameMap with
      | some e =>
        rw [hv] at hdl
        simp at hdl
      | none =>
        rw [hv] at hdl
        obtain ⟨rfl, rfl⟩ := prepareDispatch_download_spec _ _ _ hdl
        exact ⟨rfl, fun host hmem => buildMap_lookup _ host hmem, buildMap_keys_nodup _,
          fun k hk => buildMap_keys_subset _ k hk⟩
  · rw [prepare, if_neg huse] at hdl ⊢
    obtain ⟨rfl, rfl⟩ := prepareDispatch_download_spec _ _ _ hdl
    exact ⟨rfl, fun host hmem => buildMap_lookup _ host hmem, buildMap_keys_nodup _,
      fun k hk => buildMap_keys_subset _ k hk⟩

/-- C8 witness: for the two-host sample operation, the registered map
gives each host its expected tarball path. -/
theorem c8_witness :
    lookupPairs (buildHostToFilePathsMap sampleTarOp) "A" =
        some (tarballPath sampleTarOp "A") ∧
      lookupPairs (buildHostToFilePathsMap sampleTarOp) "B" =
        some (tarballPath sampleTarOp "B") := by
  have h := c8_prepare_registers_download_map sampleTarOp ["A", "B"] sampleTarOp.hosts
    (buildHostToFilePathsMap sampleTarOp) rfl
  exact ⟨h.2.1 "A" (by decide), h.2.1 "B" (by decide)⟩

/-- C5: for an async replication command, the produced instruction list
is exactly health check, then the status snapshot, then the replication
trigger, then the poll.  The snapshot requests transaction IDs only with
an empty exclude set, writing into the freshly allocated transaction-IDs
cell (`slot + 1`); the poll reads that same cell as its exclude set and
writes the caller's output slot. -/
theorem c5_async_instruction_order (options : VReplicationDatabaseOptions)
    (currentUsername : Except String String) (tup : Bool)
    (opts : VReplicationDatabaseOptions) (slot : Nat)
    (hres : resolveTargetUsername options currentUsername = Except.ok (tup, opts))
    (hasync : opts.async = true) :
    produceDBReplicationInstructions options none currentUsername slot =
      Except.ok
        [clusterOp.nmaHealthOp (opts.base.hosts ++ opts.targetDB.hosts),
         clusterOp.nmaReplicationStatusOp opts.targetDB.hosts tup
           { dbName := opts.targetDB.dbName
             excludedTransactionIDs := []
             getTransactionIDsOnly := true
             transactionID := 0
             userName := opts.targetDB.userName
             password := opts.targetDB.password } (slot + 1) none,
         clusterOp.nmaStartReplicationOp opts.base.hosts opts.base.usePassword tup
           { dbName := opts.base.dbName
             excludePattern := opts.excludePattern
             includePattern := opts.includePattern
             tableOrSchemaName := opts.tableOrSchemaName
             username := opts.base.userName
             password := opts.base.password
             targetDBName := opts.targetDB.dbName
             targetHost := getInitiator opts.targetDB.hosts
             targetNamespace := opts.targetNamespace
             targetUserName := opts.targetDB.userName
             targetPassword := opts.targetDB.password
             tlsConfig := opts.sourceTLSConfig },
         clusterOp.nmaPollReplicationStatusOp opts.targetDB.hosts tup opts.sandboxName
           (slot + 1) slot] := by
  rw [produceDBReplicationInstructions, hres]
  simp [hasync]

/-- C5 witness: the async sample options produce the four instructions
in order, with the status snapshot and the poll sharing cell 1 and the
poll writing output slot 0. -/
theorem c5_witness :
    produceDBReplicationInstructions sampleAsyncOptions none (Except.ok "osuser") 0 =
      Except.ok
        [clusterOp.nmaHealthOp
           (sampleAsyncOptions.base.hosts ++ sampleAsyncOptions.targetDB.hosts),
         clusterOp.nmaReplicationStatusOp sampleAsyncOptions.targetDB.hosts false
           { dbName := sampleAsyncOptions.targetDB.dbName
             excludedTransactionIDs := []
             getTransactionIDsOnly := true
             transactionID := 0
             userName := sampleAsyncOptions.targetDB.userName
             password := sampleAsyncOptions.targetDB.password } 1 none,
         clusterOp.nmaStartReplicationOp sampleAsyncOptions.base.hosts
           sampleAsyncOptions.base.usePassword false
           { dbName := sampleAsyncOptions.base.dbName
             excludePattern := sampleAsyncOptions.excludePattern
             includePattern := sampleAsyncOptions.includePattern
             tableOrSchemaName := sampleAsyncOptions.tableOrSchemaName
             username := sampleAsyncOptions.base.userName
             password := sampleAsyncOptions.base.password
             targetDBName := sampleAsyncOptions.targetDB.dbName
             targetHost := getInitiator sampleAsyncOptions.targetDB.hosts
             targetNamespace := sampleAsyncOptions.targetNamespace
             targetUserName := sampleAsyncOptions.targetDB.userName
             targetPassword := sampleAsyncOptions.targetDB.password
             tlsConfig := sampleAsyncOptions.sourceTLSConfig },
         clusterOp.nmaPollReplicationStatusOp sampleAsyncOptions.targetDB.hosts false
           sampleAsyncOptions.sandboxName 1 0] :=
  c5_async_instruction_order sampleAsyncOptions (Except.ok "osuser") false
    sampleAsyncOptions 0 rfl rfl

/-- Once validation and analysis have produced `o1`, `VReplicateDatabase`
reduces to the remaining three stages applied to `o1`. -/
theorem VReplicateDatabase_after_validation (options : VReplicationDatabaseOptions)
    (ext : externalOutcomes) (o1 : VReplicationDatabaseOptions)
    (h1 : validateAnalyzeOptions options ext = Except.ok o1) :
    VReplicateDatabase options ext =
      (match ext.getVDBErr with
       | some e => (0, some e)
       | none =>
         match produceDBReplicationInstructions o1 ext.setUsePasswordErr
             ext.currentUsername 0 with
         | Except.error e => (0, some ("fail to produce instructions, " ++ e))
         | Except.ok _instructions =>
           match ext.engineRun with
           | Except.error e =>
             (0, some ("fail to replicate database: " ++ rewriteEngineRunError e))
           | Except.ok written => (written.getD 0, none)) := by
  rw [VReplicateDatabase, h1]

/-- C6: `VReplicateDatabase` returns the pair of the transaction-id slot
value and the error: each failing stage (option validation or analysis,
database discovery, instruction production, engine run) yields 0 with a
non-nil error; a fully successful run yields the slot value the pipeline
wrote (0 when it wrote nothing) and a nil error; and a non-nil error
always comes with a 0 transaction id. -/
theorem c6_return_value_contract (options : VReplicationDatabaseOptions)
    (ext : externalOutcomes) :
    (∀ e, validateAnalyzeOptions options ext = Except.error e →
        VReplicateDatabase options ext = (0, some e)) ∧
      (∀ o1 e, validateAnalyzeOptions options ext = Except.ok o1 →
        ext.getVDBErr = some e →
        VReplicateDatabase options ext = (0, some e)) ∧
      (∀ o1 e, validateAnalyzeOptions options ext = Except.ok o1 →
        ext.getVDBErr = none →
        produceDBReplicationInstructions o1 ext.setUsePasswordErr ext.currentUsername 0 =
          Except.error e →
        VReplicateDatabase options ext = (0, some ("fail to produce instructions, " ++ e))) ∧
      (∀ o1 instrs e, validateAnalyzeOptions options ext = Except.ok o1 →
        ext.getVDBErr = none →
        produceDBReplicationInstructions o1 ext.setUsePasswordErr ext.currentUsername 0 =
          Except.ok instrs →
        ext.engineRun = Except.error e →
        VReplicateDatabase options ext =
          (0, some ("fail to replicate database: " ++ rewriteEngineRunError e))) ∧
      (∀ o1 instrs w, validateAnalyzeOptions options ext = Except.ok o1 →
        ext.getVDBErr = none →
        produceDBReplicationInstructions o1 ext.setUsePasswordErr ext.currentUsername 0 =
          Except.ok instrs →
        ext.engineRun = Except.ok w →
        VReplicateDatabase options ext = (w.getD 0, none)) ∧
      ((VReplicateDatabase options ext).2.isSome = true →
        (VReplicateDatabase options ext).1 = 0) := by
  refine ⟨?_, ?_, ?_, ?_, ?_, ?_⟩
  · intro e h
    rw [VReplicateDatabase, h]
  · intro o1 e h1 h2
    rw [VReplicateDatabase_after_validation options ext o1 h1, h2]
  · intro o1 e h1 h2 h3
    rw [VReplicateDatabase_after_validation options ext o1 h1, h2, h3]
  · intro o1 instrs e h1 h2 h3 h4
    rw [VReplicateDatabase_after_validation options ext o1 h1, h2, h3, h4]
  · intro o1 instrs w h1 h2 h3 h4
    rw [VReplicateDatabase_after_validation options ext o1 h1, h2, h3, h4]
  · cases hva : validateAnalyzeOptions options ext with
    | error e =>
      rw [VReplicateDatabase, hva]
      intro
      rfl
    | ok o1 =>
      cases hvdb : ext.getVDBErr with
      | some e =>
        rw [VReplicateDatabase_after_validation options ext o1 hva, hvdb]
        intro
        rfl
      | none =>
        cases hprod : produceDBReplicationInstructions o1 ext.setUsePasswordErr
            ext.currentUsername 0 with
        | error e =>
          rw [VReplicateDatabase_after_validation options ext o1 hva, hvdb, hprod]
          intro
          rfl
        | ok instrs =>
          cases heng : ext.engineRun with
          | error e =>
            rw [VReplicateDatabase_after_validation options ext o1 hva, hvdb, hprod, heng]
            intro
            rfl
          | ok w =>
            rw [VReplicateDatabase_after_validation options ext o1 hva, hvdb, hprod, heng]
            intro h
            simp at h

/-- C6 witness: with every collaborator succeeding and the pipeline
writing 42 into the output slot, the call returns (42, nil). -/
theorem c6_witness : VReplicateDatabase sampleReplOptions sampleExt = (42, none) :=
  (c6_return_value_contract sampleReplOptions sampleExt).2.2.2.2.1 _ _ (some 42)
    rfl rfl rfl rfl

/-- C10: replication options for a non-Eon database fail validation with
the Eon-mode error (provided the earlier required-options batch passed),
the five validation batches run in the fixed order required, Eon, auth,
extra, fine-grained with the first failure returned, and for a non-Eon
database `VReplicateDatabase` returns that validation error with a 0
transaction id, before instruction production. -/
theorem c10_eon_mode_and_batch_order (options : VReplicationDatabaseOptions)
    (ext : externalOutcomes) :
    (validateRequiredOptions ext = none → options.base.isEon = false →
        validateParseOptions options ext =
          some "replication is only supported in Eon mode") ∧
      validateParseOptions options ext =
        Option.orElse (validateRequiredOptions ext) (fun _ =>
          Option.orElse (validateEonOptions options) (fun _ =>
            Option.orElse ext.validateAuthErr (fun _ =>
              Option.orElse (validateExtraOptions options ext) (fun _ =>
                validateFineGrainedReplicationOptions options ext)))) ∧
      (validateRequiredOptions ext = none → options.base.isEon = false →
        VReplicateDatabase options ext =
          (0, some "replication is only supported in Eon mode")) := by
  have heon : options.base.isEon = false →
      validateEonOptions options = some "replication is only supported in Eon mode" := by
    intro h
    rw [validateEonOptions, h]
    rfl
  refine ⟨?_, ?_, ?_⟩
  · intro hreq hfalse
    rw [validateParseOptions, hreq, heon hfalse]
  · cases hr : validateRequiredOptions ext with
    | some e => rw [validateParseOptions, hr]; rfl
    | none =>
      cases he : validateEonOptions options with
      | some e => rw [validateParseOptions, hr, he]; rfl
      | none =>
        cases ha : ext.validateAuthErr with
        | some e => rw [validateParseOptions, hr, he, ha]; rfl
        | none =>
          cases hx : validateExtraOptions options ext with
          | some e => rw [validateParseOptions, hr, he, ha, hx]; rfl
          | none => rw [validateParseOptions, hr, he, ha, hx]; rfl
  · intro hreq hfalse
    have hp : validateParseOptions options ext =
        some "replication is only supported in Eon mode" := by
      rw [validateParseOptions, hreq, heon hfalse]
    have hva : validateAnalyzeOptions options ext =
        Except.error "replication is only supported in Eon mode" := by
      rw [validateAnalyzeOptions, hp]
    rw [VReplicateDatabase, hva]

/-- C10 witness: the sample options with Eon mode off fail validation
and the whole call with the Eon-mode error and a 0 transaction id. -/
theorem c10_witness :
    validateParseOptions sampleNoEonOptions sampleExt =
        some "replication is only supported in Eon mode" ∧
      VReplicateDatabase sampleNoEonOptions sampleExt =
        (0, some "replication is only supported in Eon mode") := by
  have h := c10_eon_mode_and_batch_order sampleNoEonOptions sampleExt
  exact ⟨h.1 rfl rfl, h.2.2 rfl rfl⟩

end VCluster
